import Mathlib

/-!
Shallow embedding of the request-admission and response-caching layer of
src/app.py (the Gemini gatekeeper): quota tracker, cooldown gate, response
cache, provider-adapter fallback loop and the orchestrating function
process_image_with_gemini.

Conventions of the embedding:
* Python dicts become association lists with dict semantics: lookup by key
  equality, update-in-place of an existing key (keeping its position, as
  CPython preserves insertion order), append of a fresh key.
* datetime timestamps become rationals (seconds); datetime.min becomes the
  constant dtMin, and the several datetime.now() readings inside one call
  are collapsed to a single parameter now.  Calendar dates become naturals.
* The remote model.generate_content call is a parameter
  call : String -> ProviderResp mapping the cleaned model name to either a
  response text or the string of the raised exception.  The prompt built
  from mode/tone/length/language is fixed within one invocation, so it is
  not a separate argument of call.
* The md5 hexdigest of the image bytes is a parameter md5hex; reading the
  image file is an Except value (error = the exception raised by open/read).
* The distinct f-string response texts of app.py are mirrored by the
  inductive RText, so the branch that produced an outcome is observable.
-/

namespace SoulSight

/-- Association-list lookup with Python dict semantics (first matching key). -/
def dget {κ α : Type} [DecidableEq κ] : List (κ × α) → κ → Option α
  | [], _ => none
  | (k, v) :: rest, key => if k = key then some v else dget rest key

/-- Association-list store with Python dict semantics: update an existing key
in place (CPython keeps its insertion position), append a fresh key. -/
def dinsert {κ α : Type} [DecidableEq κ] : List (κ × α) → κ → α → List (κ × α)
  | [], k, v => [(k, v)]
  | (k0, v0) :: rest, k, v =>
      if k0 = k then (k, v) :: rest else (k0, v0) :: dinsert rest k v

/-- Does the character list n occur at the head of h. -/
def leadsWith : List Char → List Char → Bool
  | [], _ => true
  | _ :: _, [] => false
  | a :: as, b :: bs => a = b && leadsWith as bs

/-- Does the character list n occur anywhere inside h. -/
def occursIn (n : List Char) : List Char → Bool
  | [] => leadsWith n []
  | b :: bs => leadsWith n (b :: bs) || occursIn n bs

/-- Python `needle in hay` on strings. -/
def containsStr (hay needle : String) : Bool :=
  occursIn needle.toList hay.toList

/-- Python str.lower (ASCII is all that the scanned keywords need). -/
def lowerStr (s : String) : String :=
  String.mk (s.toList.map Char.toLower)

/-- Python truthiness of the user_id argument (None and 0 are falsy). -/
def truthy : Option Nat → Bool
  | none => false
  | some n => decide (n ≠ 0)

/-- Python truthiness of an optional string (None and "" are falsy). -/
def strTruthy : Option String → Bool
  | none => false
  | some s => decide (s ≠ "")

/-- Python f-string rendering of an optional value (None prints as "None"),
as used inside the composite cache key. -/
def optStr : Option String → String
  | none => "None"
  | some s => s

-- ============ constants (src/app.py lines 156-158) ============

/-- FREE_TIER_DAILY_LIMIT = 15 (app.py line 157). -/
def FREE_TIER_DAILY_LIMIT : Nat := 15

/-- FREE_TIER_COOLDOWN = 60 seconds (app.py line 158). -/
def FREE_TIER_COOLDOWN : ℚ := 60

/-- Model of datetime.min, the initial value of the cooldown timestamps. -/
def dtMin : ℚ := 0

-- ============ quota tracker state (app.py lines 148-149) ============

/-- gemini_daily_counts and gemini_daily_reset_date. -/
structure QuotaState where
  counts : List (Nat × Nat)
  resetDate : Nat
  deriving DecidableEq

-- ============ cooldown gate state (app.py lines 144-145) ============

/-- gemini_last_call_time and gemini_user_cooldowns. -/
structure CooldownState where
  lastGlobal : ℚ
  userCooldowns : List (Nat × ℚ)
  deriving DecidableEq

/-- The three distinct message shapes check_gemini_cooldown can return:
the global-cooldown f-string, the per-user f-string, and "OK". -/
inductive CooldownMsg where
  | globalWait (w : ℚ)
  | userWait (w : ℚ)
  | ok
  deriving DecidableEq

-- ============ quota tracker operations (app.py lines 174-198) ============

/-- check_daily_quota (app.py lines 174-192).  Under the daily lock: if the
wall-clock date moved past the stored reset date, clear the counts map and
advance the reset date; then read the count of user_id and compare with the
daily limit.  State-passing mirrors the globals the source mutates. -/
def check_daily_quota (st : QuotaState) (today : Nat) (user_id : Nat) :
    (Bool × Nat × Nat) × QuotaState :=
  let st1 : QuotaState := if today ≠ st.resetDate then ⟨[], today⟩ else st
  let user_count := (dget st1.counts user_id).getD 0
  if user_count ≥ FREE_TIER_DAILY_LIMIT then
    ((false, user_count, FREE_TIER_DAILY_LIMIT), st1)
  else
    ((true, user_count, FREE_TIER_DAILY_LIMIT), st1)

/-- increment_daily_count (app.py lines 194-198): adds one to the count of
user_id; it does not consult the calendar date. -/
def increment_daily_count (st : QuotaState) (user_id : Nat) : Nat × QuotaState :=
  let n := (dget st.counts user_id).getD 0 + 1
  (n, ⟨dinsert st.counts user_id n, st.resetDate⟩)

-- ============ cooldown gate operations (app.py lines 200-230) ============

/-- check_gemini_cooldown (app.py lines 200-222): global cooldown first,
then the per-user cooldown when user_id is truthy.  The function only reads
the state; the returned CooldownState mirrors exiting the lock without any
assignment. -/
def check_gemini_cooldown (st : CooldownState) (now : ℚ) (user_id : Option Nat) :
    (Bool × ℚ × CooldownMsg) × CooldownState :=
  let tglob := now - st.lastGlobal
  if tglob < FREE_TIER_COOLDOWN then
    ((false, FREE_TIER_COOLDOWN - tglob, CooldownMsg.globalWait (FREE_TIER_COOLDOWN - tglob)), st)
  else if truthy user_id then
    let lastu := (dget st.userCooldowns (user_id.getD 0)).getD dtMin
    let tuser := now - lastu
    if tuser < FREE_TIER_COOLDOWN then
      ((false, FREE_TIER_COOLDOWN - tuser, CooldownMsg.userWait (FREE_TIER_COOLDOWN - tuser)), st)
    else
      ((true, 0, CooldownMsg.ok), st)
  else
    ((true, 0, CooldownMsg.ok), st)

/-- update_gemini_call_time (app.py lines 224-230): set the global timestamp
to now, and the per-user timestamp when user_id is truthy. -/
def update_gemini_call_time (st : CooldownState) (now : ℚ) (user_id : Option Nat) :
    CooldownState :=
  let st1 : CooldownState := { st with lastGlobal := now }
  if truthy user_id then
    { st1 with userCooldowns := dinsert st1.userCooldowns (user_id.getD 0) now }
  else
    st1

-- ============ content fingerprinter (app.py lines 160-172) ============

/-- calculate_image_hash (app.py lines 160-172): streams the file through
md5 (the chunking is observationally the hash of the whole byte list) and
returns the hexdigest; any exception while reading is caught and yields
None.  The md5 hexdigest function is the parameter md5hex. -/
def calculate_image_hash (file : Except String (List Nat))
    (md5hex : List Nat → String) : Option String :=
  match file with
  | .error _ => none
  | .ok bytes => some (md5hex bytes)

-- ============ response cache (app.py lines 152-153, 232-246) ============

/-- The response texts of app.py, one constructor per distinct f-string, so
that which branch produced an outcome is observable in the model. -/
inductive RText where
  /-- "Daily quota exceeded..." (lines 284-291). -/
  | dailyQuota (used limit : Nat)
  /-- The cooldown rejection text wrapping the check message (lines 296-302). -/
  | cooldownM (m : CooldownMsg)
  /-- A provider response text (success path, and the cached copy of one). -/
  | plain (s : String)
  /-- "Free tier quota reached for today..." (lines 469-476). -/
  | quotaReached
  /-- "Model configuration error..." (lines 478-485). -/
  | modelConfigError
  /-- "Error: {error_str[:150]}" (lines 487-494). -/
  | providerError (s : String)
  /-- "All models failed..." (lines 496-503). -/
  | allFailed
  deriving DecidableEq

/-- The result dict of process_image_with_gemini.  quota_exceeded and
model_used are Option because some of the source dicts omit those keys. -/
structure GResult where
  text : RText
  confidence : String
  processing_time : ℚ
  cached : Bool
  cooldown : ℚ
  quota_exceeded : Option Bool
  model_used : Option String
  deriving DecidableEq

/-- The composite cache key f"{image_hash}:{mode}:{custom_prompt}:{tone}:{length}:{language}:{question}" (app.py lines 234, 239). -/
def cacheKey (h mode : String) (custom_prompt : Option String)
    (tone lengthP language : String) (question : Option String) : String :=
  h ++ ":" ++ mode ++ ":" ++ optStr custom_prompt ++ ":" ++ tone ++ ":" ++
    lengthP ++ ":" ++ language ++ ":" ++ optStr question

/-- get_cached_result (app.py lines 232-235). -/
def get_cached_result (cache : List (String × GResult)) (key : String) :
    Option GResult :=
  dget cache key

/-- cache_result (app.py lines 237-246): insert under the composite key;
if the cache then holds more than 1000 entries, delete the first 100 keys in
dict order, i.e. the 100 earliest-inserted surviving keys. -/
def cache_result (cache : List (String × GResult)) (key : String) (v : GResult) :
    List (String × GResult) :=
  let c := dinsert cache key v
  if c.length > 1000 then c.drop 100 else c

-- ============ provider adapter (app.py lines 320-503) ============

/-- The outcome of one model.generate_content call: the response text, or
the string of the exception it raised. -/
inductive ProviderResp where
  | ok (text : String)
  | err (msg : String)
  deriving DecidableEq

/-- "429" in error_str or "quota" in error_str.lower() (app.py lines 409, 468). -/
def isQuotaError (s : String) : Bool :=
  containsStr s "429" || containsStr (lowerStr s) "quota"

/-- "404" in error_str or "not found" in error_str.lower() (app.py line 414). -/
def isNotFoundError (s : String) : Bool :=
  containsStr s "404" || containsStr (lowerStr s) "not found"

/-- "503" in error_str or "unavailable" in error_str.lower() (app.py line 417). -/
def isUnavailableError (s : String) : Bool :=
  containsStr s "503" || containsStr (lowerStr s) "unavailable"

/-- model_name.replace with the leading "models/" removed when present
(app.py lines 346-349; candidate names carry the marker at most once, at the
head, so dropping the 7-character head equals the replacement). -/
def cleanName (m : String) : String :=
  if leadsWith "models/".toList m.toList then m.drop 7 else m

/-- The fixed fallback sequence models_to_try (app.py lines 324-328). -/
def baseModels : List String :=
  ["gemini-2.0-flash", "gemini-flash-latest", "gemini-1.5-flash-latest"]

/-- list(dict.fromkeys(l)): drop duplicates keeping the first occurrence
(app.py line 335). -/
def dedupFirst : List String → List String
  | [] => []
  | x :: xs => x :: (dedupFirst xs).filter (fun y => y ≠ x)

/-- The candidate list: the configured model (when truthy) prepended to the
fixed sequence, duplicates removed (app.py lines 324-335). -/
def buildModels (configModel : Option String) : List String :=
  dedupFirst (if strTruthy configModel then configModel.getD "" :: baseModels else baseModels)

/-- How the for loop over models terminates: first success (break by
return), break on a quota-class provider error, or exhaustion of the
candidate list with the last recorded error (None when every failure was of
the 404/503 class, which does not record last_error). -/
inductive LoopOut where
  | success (modelUsed text : String)
  | quotaStop (err : String)
  | exhausted (lastErr : Option String)
  deriving DecidableEq

/-- The for loop of app.py lines 341-463 over the candidate models, with
lastErr the running value of last_error.  Per candidate: a non-empty
response text returns success; an empty text raises "Empty response from
model", which the classifier sends to the else branch, whose re-raise is
caught by the outer handler (lines 460-463) that records it and continues;
an error containing a quota signal breaks out of the loop; a 404/503-class
error continues without recording last_error; any other error is re-raised,
caught by the outer handler, recorded and the loop continues. -/
def fallbackLoop (call : String → ProviderResp) :
    List String → Option String → LoopOut
  | [], lastErr => .exhausted lastErr
  | m :: rest, lastErr =>
    match call (cleanName m) with
    | .ok t =>
        if t = "" then fallbackLoop call rest (some "Empty response from model")
        else .success (cleanName m) t
    | .err s =>
        if isQuotaError s then .quotaStop s
        else if isNotFoundError s then fallbackLoop call rest lastErr
        else if isUnavailableError s then fallbackLoop call rest lastErr
        else fallbackLoop call rest (some s)

/-- Confidence from the response text length (app.py lines 427-433). -/
def confOf (t : String) : String :=
  if t.length > 100 then "High" else if t.length > 50 then "Medium" else "Low"

/-- result_data of the success path (app.py lines 435-443). -/
def successResult (modelUsed t : String) (procTime : ℚ) : GResult :=
  { text := .plain t, confidence := confOf t, processing_time := procTime,
    cached := false, cooldown := 0, quota_exceeded := some false,
    model_used := some modelUsed }

/-- The quota-exhaustion outcome (app.py lines 469-476). -/
def quotaStopResult : GResult :=
  { text := .quotaReached, confidence := "Low", processing_time := 0,
    cached := false, cooldown := 86400, quota_exceeded := some true,
    model_used := none }

/-- The model-configuration-error outcome (app.py lines 478-485). -/
def notFoundResult : GResult :=
  { text := .modelConfigError, confidence := "Low", processing_time := 0,
    cached := false, cooldown := 0, quota_exceeded := some false,
    model_used := none }

/-- The generic provider-error outcome (app.py lines 487-494). -/
def genericErrorResult (s : String) : GResult :=
  { text := .providerError (s.take 150), confidence := "Low",
    processing_time := 0, cached := false, cooldown := 300,
    quota_exceeded := some false, model_used := none }

/-- The all-models-failed outcome when no error was recorded
(app.py lines 496-503). -/
def allFailedResult : GResult :=
  { text := .allFailed, confidence := "Low", processing_time := 0,
    cached := false, cooldown := 300, quota_exceeded := some false,
    model_used := none }

/-- The "if last_error:" block after the loop (app.py lines 465-503): the
recorded error string is classified again (quota signal, then the bare
"404" marker, then generic); with no recorded error the all-failed outcome
is returned. -/
def failFinalize (lastErr : Option String) : GResult :=
  match lastErr with
  | some s =>
      if isQuotaError s then quotaStopResult
      else if containsStr s "404" then notFoundResult
      else genericErrorResult s
  | none => allFailedResult

-- ============ orchestrator (app.py lines 275-516) ============

/-- The whole process state: the quota tracker, the cooldown gate and the
response cache (the three process-wide stores of app.py lines 143-154). -/
structure GlobalState where
  quota : QuotaState
  cooldown : CooldownState
  cache : List (String × GResult)
  deriving DecidableEq

/-- The daily-quota rejection dict (app.py lines 284-291); the source dict
has no model_used key. -/
def dailyQuotaResult (used limit : Nat) : GResult :=
  { text := .dailyQuota used limit, confidence := "Low", processing_time := 0,
    cached := false, cooldown := 3600, quota_exceeded := some true,
    model_used := none }

/-- The cooldown rejection dict (app.py lines 296-302); the source dict has
neither a quota_exceeded nor a model_used key. -/
def cooldownResult (wait : ℚ) (msg : CooldownMsg) : GResult :=
  { text := .cooldownM msg, confidence := "Low", processing_time := 0,
    cached := false, cooldown := wait, quota_exceeded := none,
    model_used := none }

/-- The cache-hit return dict (app.py lines 311-318); the stored entries are
full result_data dicts, so the .get lookups with defaults always find the
stored fields. -/
def cachedHitResult (r : GResult) : GResult :=
  { text := r.text, confidence := r.confidence,
    processing_time := r.processing_time, cached := true, cooldown := 0,
    quota_exceeded := some false, model_used := none }

/-- Python truthiness of the computed image hash (None falsy, "" falsy). -/
def hashTruthy : Option String → Bool
  | none => false
  | some h => decide (h ≠ "")

/-- The part of process_image_with_gemini from the model loop onward
(app.py lines 320-503): run the fallback loop; on success build
result_data, insert it into the cache when a hash is available, update the
cooldown timestamps and, for a truthy user, the daily count; on a break or
on exhaustion classify the recorded error without touching any state. -/
def runProvider (call : String → ProviderResp) (models : List String)
    (useCache : Bool) (key : String) (now procTime : ℚ) (user_id : Option Nat)
    (st : GlobalState) : GResult × GlobalState :=
  match fallbackLoop call models none with
  | .success m t =>
      let rd := successResult m t procTime
      let cache1 := if useCache then cache_result st.cache key rd else st.cache
      let cd1 := update_gemini_call_time st.cooldown now user_id
      let q1 := if truthy user_id then (increment_daily_count st.quota (user_id.getD 0)).2
                else st.quota
      (rd, ⟨q1, cd1, cache1⟩)
  | .quotaStop s => (failFinalize (some s), st)
  | .exhausted lastErr => (failFinalize lastErr, st)

/-- The part of process_image_with_gemini after the admission checks
(app.py lines 304-318 then 320-503): fingerprint the image; when the hash
is truthy, look up the response cache under the composite key and return a
cache hit immediately without touching any state; otherwise run the
provider loop. -/
def afterAdmission (call : String → ProviderResp)
    (md5hex : List Nat → String) (file : Except String (List Nat))
    (mode : String) (custom_prompt : Option String)
    (tone lengthP language : String) (question : Option String)
    (user_id : Option Nat) (configModel : Option String)
    (now procTime : ℚ) (st : GlobalState) : GResult × GlobalState :=
  let image_hash := calculate_image_hash file md5hex
  let useCache := hashTruthy image_hash
  let key := cacheKey (image_hash.getD "") mode custom_prompt tone lengthP language question
  match (if useCache then get_cached_result st.cache key else none) with
  | some r => (cachedHitResult r, st)
  | none => runProvider call (buildModels configModel) useCache key now procTime user_id st

/-- The cooldown check and everything after it (app.py lines 293-503). -/
def afterQuota (call : String → ProviderResp)
    (md5hex : List Nat → String) (file : Except String (List Nat))
    (mode : String) (custom_prompt : Option String)
    (tone lengthP language : String) (question : Option String)
    (user_id : Option Nat) (configModel : Option String)
    (now procTime : ℚ) (st : GlobalState) : GResult × GlobalState :=
  let ((can_call, wait_time, message), cds) := check_gemini_cooldown st.cooldown now user_id
  let st1 : GlobalState := { st with cooldown := cds }
  if can_call then
    afterAdmission call md5hex file mode custom_prompt tone lengthP language question
      user_id configModel now procTime st1
  else
    (cooldownResult wait_time message, st1)

/-- process_image_with_gemini (app.py lines 275-516): daily-quota check for
a truthy user, then the cooldown check, then fingerprint, cache and the
provider loop.  The outer try of line 320 only re-wraps exceptions that the
inner handlers already absorb, so it contributes no extra branch to the
model. -/
def process_image_with_gemini (call : String → ProviderResp)
    (md5hex : List Nat → String) (file : Except String (List Nat))
    (mode : String) (custom_prompt : Option String)
    (tone lengthP language : String) (question : Option String)
    (user_id : Option Nat) (configModel : Option String)
    (now : ℚ) (today : Nat) (procTime : ℚ) (st : GlobalState) :
    GResult × GlobalState :=
  if truthy user_id then
    let ((has_quota, current_count, daily_limit), q1) :=
      check_daily_quota st.quota today (user_id.getD 0)
    let st1 : GlobalState := { st with quota := q1 }
    if has_quota then
      afterQuota call md5hex file mode custom_prompt tone lengthP language question
        user_id configModel now procTime st1
    else
      (dailyQuotaResult current_count daily_limit, st1)
  else
    afterQuota call md5hex file mode custom_prompt tone lengthP language question
      user_id configModel now procTime st

-- ============ helper lemmas on the dict model ============

theorem dget_dinsert_self {κ α : Type} [DecidableEq κ] (l : List (κ × α)) (k : κ) (v : α) :
    dget (dinsert l k v) k = some v := by
  induction l with
  | nil => simp [dinsert, dget]
  | cons p rest ih =>
    obtain ⟨k0, v0⟩ := p
    by_cases h : k0 = k
    · simp [dinsert, h, dget]
    · simp [dinsert, h, dget, ih]

theorem dinsert_of_fresh {κ α : Type} [DecidableEq κ] {l : List (κ × α)} {k : κ} (v : α)
    (h : dget l k = none) : dinsert l k v = l ++ [(k, v)] := by
  induction l with
  | nil => simp [dinsert]
  | cons p rest ih =>
    obtain ⟨k0, v0⟩ := p
    by_cases hk : k0 = k
    · simp [dget, hk] at h
    · simp [dget, hk] at h
      simp [dinsert, hk, ih h]

theorem dget_append_of_none {κ α : Type} [DecidableEq κ] {l : List (κ × α)} {k : κ}
    (l2 : List (κ × α)) (h : dget l k = none) : dget (l ++ l2) k = dget l2 k := by
  induction l with
  | nil => simp
  | cons p rest ih =>
    obtain ⟨k0, v0⟩ := p
    by_cases hk : k0 = k
    · simp [dget, hk] at h
    · simp [dget, hk] at h
      simp [dget, hk, ih h]

theorem dget_eq_none_of_not_mem {κ α : Type} [DecidableEq κ] {l : List (κ × α)} {k : κ}
    (h : k ∉ l.map Prod.fst) : dget l k = none := by
  induction l with
  | nil => simp [dget]
  | cons p rest ih =>
    obtain ⟨k0, v0⟩ := p
    have h1 : ¬ k0 = k := fun hh => h (by simp [hh])
    have h2 : k ∉ rest.map Prod.fst := fun hh => h (by simp [hh])
    simp [dget, h1, ih h2]

/-- check_gemini_cooldown only reads the cooldown state. -/
theorem check_cooldown_snd (st : CooldownState) (now : ℚ) (uid : Option Nat) :
    (check_gemini_cooldown st now uid).2 = st := by
  unfold check_gemini_cooldown
  by_cases h1 : now - st.lastGlobal < FREE_TIER_COOLDOWN
  · simp [h1]
  · by_cases h2 : truthy uid
    · by_cases h3 : now - (dget st.userCooldowns (uid.getD 0)).getD dtMin < FREE_TIER_COOLDOWN
      · simp [h1, h2, h3]
      · simp [h1, h2, h3]
    · simp [h1, h2]

/-- With a falsy user the cooldown gate ignores the per-user map. -/
theorem check_cooldown_falsy (st : CooldownState) (now : ℚ) (uid : Option Nat)
    (hf : truthy uid = false) :
    check_gemini_cooldown st now uid = check_gemini_cooldown st now none := by
  unfold check_gemini_cooldown
  rw [hf]
  simp [truthy]

/-- With a falsy user update_gemini_call_time only moves the global timestamp. -/
theorem update_call_time_falsy (st : CooldownState) (now : ℚ) (uid : Option Nat)
    (hf : truthy uid = false) :
    update_gemini_call_time st now uid = { st with lastGlobal := now } := by
  unfold update_gemini_call_time
  simp [hf]

-- ============ claim C2 ============

/-- C2: in the fallback loop, a remote failure whose error text carries a
rate/quota signal (contains "429", or "quota" after lowercasing) stops the
loop at that candidate: the outcome is the same for every list of remaining
candidates, and the surfaced outcome has quota_exceeded = true with the
24-hour retry hint cooldown = 86400, with no state mutation. -/
theorem c2_quota_error_halts_fallback (call : String → ProviderResp) (m : String)
    (rest : List String) (lastErr : Option String) (s : String)
    (useCache : Bool) (key : String) (now pt : ℚ) (uid : Option Nat) (st : GlobalState)
    (hcall : call (cleanName m) = .err s) (hq : isQuotaError s = true) :
    fallbackLoop call (m :: rest) lastErr = .quotaStop s ∧
    runProvider call (m :: rest) useCache key now pt uid st = (quotaStopResult, st) ∧
    quotaStopResult.quota_exceeded = some true ∧ quotaStopResult.cooldown = 86400 := by
  have hloop : fallbackLoop call (m :: rest) lastErr = .quotaStop s := by
    unfold fallbackLoop
    rw [hcall]
    simp [hq]
  have hloop0 : fallbackLoop call (m :: rest) none = .quotaStop s := by
    unfold fallbackLoop
    rw [hcall]
    simp [hq]
  refine ⟨hloop, ?_, rfl, rfl⟩
  unfold runProvider
  rw [hloop0]
  simp [failFinalize, hq]

/-- C2 witness: a provider whose first candidate raises a 429-class error. -/
theorem c2_quota_error_halts_fallback_witness :
    fallbackLoop (fun _ => ProviderResp.err "429 RESOURCE_EXHAUSTED")
        ("gemini-2.0-flash" :: ["gemini-flash-latest", "gemini-1.5-flash-latest"]) none =
      .quotaStop "429 RESOURCE_EXHAUSTED" ∧
    runProvider (fun _ => ProviderResp.err "429 RESOURCE_EXHAUSTED")
        ("gemini-2.0-flash" :: ["gemini-flash-latest", "gemini-1.5-flash-latest"]) true "k"
        1000 1 (some 1) ⟨⟨[], 5⟩, ⟨0, []⟩, []⟩ =
      (quotaStopResult, ⟨⟨[], 5⟩, ⟨0, []⟩, []⟩) ∧
    quotaStopResult.quota_exceeded = some true ∧ quotaStopResult.cooldown = 86400 :=
  c2_quota_error_halts_fallback (fun _ => ProviderResp.err "429 RESOURCE_EXHAUSTED")
    "gemini-2.0-flash" ["gemini-flash-latest", "gemini-1.5-flash-latest"] none
    "429 RESOURCE_EXHAUSTED" true "k" 1000 1 (some 1) ⟨⟨[], 5⟩, ⟨0, []⟩, []⟩
    (by decide) (by decide)

-- ============ claim C3 ============

/-- A provider whose first candidate fails with an unclassified error and
whose second candidate succeeds. -/
def c3call : String → ProviderResp := fun name =>
  if name = "gemini-2.0-flash" then .err "backend exploded" else .ok "hello there"

/-- C3 counterexample: with an unclassified ("generic") failure on the first
candidate, the loop does NOT stop: the re-raise of app.py line 421 is caught
by the outer handler of lines 460-463, which records the error and
continues, so the second candidate is attempted and the request returns its
success outcome instead of a generic error outcome. -/
theorem c3_counterexample :
    fallbackLoop c3call (buildModels none) none = .success "gemini-flash-latest" "hello there" ∧
    (process_image_with_gemini c3call (fun _ => "h") (.ok [0]) "caption" none "neutral"
        "medium" "en" none (some 1) none 1000 5 1 ⟨⟨[], 5⟩, ⟨0, []⟩, []⟩).1 =
      successResult "gemini-flash-latest" "hello there" 1 := by
  have hcd : check_gemini_cooldown ⟨0, []⟩ 1000 (some 1) = ((true, 0, CooldownMsg.ok), ⟨0, []⟩) := by
    norm_num [check_gemini_cooldown, dget, truthy, FREE_TIER_COOLDOWN, dtMin]
  have hloop : fallbackLoop c3call (buildModels none) none =
      .success "gemini-flash-latest" "hello there" := by decide
  refine ⟨hloop, ?_⟩
  have hq : check_daily_quota ⟨[], 5⟩ 5 1 = ((true, 0, 15), ⟨[], 5⟩) := by decide
  simp [process_image_with_gemini, truthy, hq, afterQuota, hcd, afterAdmission,
    calculate_image_hash, hashTruthy, get_cached_result, dget, runProvider, hloop]

/-- C3 amended: an unclassified failure on a candidate records it as the
last error and the loop continues with the remaining candidates; only when
every candidate is exhausted and the last recorded error is generic does
the request surface the generic error outcome (retry hint 300 seconds). -/
theorem c3_amended_generic_error_continues (call : String → ProviderResp) (m : String)
    (rest : List String) (lastErr : Option String) (s : String)
    (hcall : call (cleanName m) = .err s)
    (hq : isQuotaError s = false) (hn : isNotFoundError s = false)
    (hu : isUnavailableError s = false) :
    fallbackLoop call (m :: rest) lastErr = fallbackLoop call rest (some s) ∧
    failFinalize (some s) = genericErrorResult s := by
  constructor
  · conv_lhs => unfold fallbackLoop
    rw [hcall]
    simp [hq, hn, hu]
  · have h404 : containsStr s "404" = false := by
      unfold isNotFoundError at hn
      exact (Bool.or_eq_false_iff.mp hn).1
    simp [failFinalize, hq, h404]

/-- C3 amended witness: the generic failure "backend exploded" continues to
the next candidate, and as a final recorded error yields the 300-second
generic outcome. -/
theorem c3_amended_generic_error_continues_witness :
    fallbackLoop (fun _ => ProviderResp.err "backend exploded")
        ("gemini-2.0-flash" :: ["gemini-flash-latest"]) none =
      fallbackLoop (fun _ => ProviderResp.err "backend exploded") ["gemini-flash-latest"]
        (some "backend exploded") ∧
    failFinalize (some "backend exploded") = genericErrorResult "backend exploded" :=
  c3_amended_generic_error_continues (fun _ => ProviderResp.err "backend exploded")
    "gemini-2.0-flash" ["gemini-flash-latest"] none "backend exploded"
    (by decide) (by decide) (by decide) (by decide)

-- ============ claim C4 ============

set_option maxRecDepth 10000 in
/-- C4 counterexample: a call that passes the quota and cooldown checks and
enters the model loop, where every candidate fails with a generic error (a
non-quota-stop termination), leaves gemini_last_call_time untouched: the
final cooldown state still holds the initial timestamp 0 although now is
1000 — the source only calls update_gemini_call_time on the success path
(app.py line 450), never on the failure returns of lines 465-503. -/
theorem c4_counterexample :
    (process_image_with_gemini (fun _ => ProviderResp.err "backend exploded") (fun _ => "h")
        (.ok [0]) "caption" none "neutral" "medium" "en" none (some 1) none 1000 5 1
        ⟨⟨[], 5⟩, ⟨0, []⟩, []⟩).1 = genericErrorResult "backend exploded" ∧
    (process_image_with_gemini (fun _ => ProviderResp.err "backend exploded") (fun _ => "h")
        (.ok [0]) "caption" none "neutral" "medium" "en" none (some 1) none 1000 5 1
        ⟨⟨[], 5⟩, ⟨0, []⟩, []⟩).2.cooldown = ⟨0, []⟩ ∧
    (0 : ℚ) ≠ 1000 := by
  have hcd : check_gemini_cooldown ⟨0, []⟩ 1000 (some 1) = ((true, 0, CooldownMsg.ok), ⟨0, []⟩) := by
    norm_num [check_gemini_cooldown, dget, truthy, FREE_TIER_COOLDOWN, dtMin]
  have hq : check_daily_quota ⟨[], 5⟩ 5 1 = ((true, 0, 15), ⟨[], 5⟩) := by decide
  have hloop : fallbackLoop (fun _ => ProviderResp.err "backend exploded") (buildModels none) none =
      .exhausted (some "backend exploded") := by decide
  have hfin : failFinalize (some "backend exploded") = genericErrorResult "backend exploded" := by
    decide
  refine ⟨?_, ?_, by norm_num⟩ <;>
    simp [process_image_with_gemini, truthy, hq, afterQuota, hcd, afterAdmission,
      calculate_image_hash, hashTruthy, get_cached_result, dget, runProvider, hloop, hfin]

/-- C4 amended: an admitted-and-attempted call updates the global cooldown
timestamp exactly when the loop terminates in success; a quota-stop and an
exhaustion of the candidate list both leave the cooldown state unchanged. -/
theorem c4_amended_cooldown_updated_only_on_success (call : String → ProviderResp)
    (models : List String) (useCache : Bool) (key : String) (now pt : ℚ)
    (uid : Option Nat) (st : GlobalState) :
    (∀ m t, fallbackLoop call models none = .success m t →
      (runProvider call models useCache key now pt uid st).2.cooldown =
        update_gemini_call_time st.cooldown now uid ∧
      (update_gemini_call_time st.cooldown now uid).lastGlobal = now) ∧
    (∀ s, fallbackLoop call models none = .quotaStop s →
      (runProvider call models useCache key now pt uid st).2.cooldown = st.cooldown) ∧
    (∀ lastErr, fallbackLoop call models none = .exhausted lastErr →
      (runProvider call models useCache key now pt uid st).2.cooldown = st.cooldown) := by
  refine ⟨?_, ?_, ?_⟩
  · intro m t h
    refine ⟨by simp [runProvider, h], ?_⟩
    unfold update_gemini_call_time
    by_cases htr : truthy uid <;> simp [htr]
  · intro s h
    simp [runProvider, h]
  · intro lastErr h
    simp [runProvider, h]

/-- C4 amended witness: a successful loop moves the global timestamp to now. -/
theorem c4_amended_cooldown_updated_only_on_success_witness :
    (runProvider (fun _ => ProviderResp.ok "hello") ["gemini-2.0-flash"] false "k" 1000 1
        (some 1) ⟨⟨[], 5⟩, ⟨0, []⟩, []⟩).2.cooldown =
      update_gemini_call_time (⟨0, []⟩ : CooldownState) 1000 (some 1) ∧
    (update_gemini_call_time (⟨0, []⟩ : CooldownState) 1000 (some 1)).lastGlobal = 1000 :=
  (c4_amended_cooldown_updated_only_on_success (fun _ => ProviderResp.ok "hello")
    ["gemini-2.0-flash"] false "k" 1000 1 (some 1) ⟨⟨[], 5⟩, ⟨0, []⟩, []⟩).1
    "gemini-2.0-flash" "hello" (by decide)

-- ============ claim C5 ============

/-- C5 counterexample: increment_daily_count takes no calendar date at all
and performs no rollover.  Started from a state whose stored reset date is
day 0, on a later day (any today ≠ 0, e.g. day 1) it writes a count without
the map being cleared and without the reset date advancing: the stale count
5 feeds the new value 6 and resetDate stays 0. -/
theorem c5_counterexample :
    (increment_daily_count ⟨[(7, 5)], 0⟩ 7).2.resetDate ≠ 1 ∧
    (increment_daily_count ⟨[(7, 5)], 0⟩ 7).2.counts = [(7, 6)] := by decide

/-- C5 amended: the clear-and-advance reset happens inside check_daily_quota
only — on a rollover it clears the map and advances the reset date before
reading (so the read count is 0 and the call is admitted), and on the same
day it leaves the state unchanged; increment_daily_count never consults the
date and always preserves the stored reset date. -/
theorem c5_amended_reset_only_in_check (st : QuotaState) (today u : Nat) :
    (today ≠ st.resetDate →
      check_daily_quota st today u = ((true, 0, FREE_TIER_DAILY_LIMIT), ⟨[], today⟩)) ∧
    (today = st.resetDate → (check_daily_quota st today u).2 = st) ∧
    (increment_daily_count st u).2.resetDate = st.resetDate := by
  refine ⟨?_, ?_, rfl⟩
  · intro h
    simp [check_daily_quota, h, dget, FREE_TIER_DAILY_LIMIT]
  · intro h
    unfold check_daily_quota
    simp only [h, ne_eq, not_true_eq_false, if_false]
    split <;> rfl

/-- C5 amended witness: a rollover from day 0 to day 1 clears the counts
inside check_daily_quota. -/
theorem c5_amended_reset_only_in_check_witness :
    check_daily_quota ⟨[(7, 5)], 0⟩ 1 7 = ((true, 0, FREE_TIER_DAILY_LIMIT), ⟨[], 1⟩) :=
  (c5_amended_reset_only_in_check ⟨[(7, 5)], 0⟩ 1 7).1 (by decide)

end SoulSight

namespace SoulSight

-- ============ claim C7 ============

/-- C7: check_gemini_cooldown evaluates the global cooldown first — whenever
the global window is still open the rejection carries the global-cooldown
message with wait = FREE_TIER_COOLDOWN minus the global elapsed time, no
matter what the per-user map holds; and when the global window has passed, a
truthy user whose own previous recorded call is less than the cooldown
interval old is rejected with the per-user message and wait equal to the
constant minus the elapsed time exactly (the model computes in exact
rationals, which implies the sub-second tolerance of the claim). -/
theorem c7_global_first_user_wait_exact (st : CooldownState) (now : ℚ) (uid : Option Nat) :
    (now - st.lastGlobal < FREE_TIER_COOLDOWN →
      check_gemini_cooldown st now uid =
        ((false, FREE_TIER_COOLDOWN - (now - st.lastGlobal),
          CooldownMsg.globalWait (FREE_TIER_COOLDOWN - (now - st.lastGlobal))), st)) ∧
    (¬ now - st.lastGlobal < FREE_TIER_COOLDOWN → truthy uid = true →
      now - (dget st.userCooldowns (uid.getD 0)).getD dtMin < FREE_TIER_COOLDOWN →
      check_gemini_cooldown st now uid =
        ((false, FREE_TIER_COOLDOWN - (now - (dget st.userCooldowns (uid.getD 0)).getD dtMin),
          CooldownMsg.userWait
            (FREE_TIER_COOLDOWN - (now - (dget st.userCooldowns (uid.getD 0)).getD dtMin))), st)) := by
  constructor
  · intro h
    unfold check_gemini_cooldown
    simp [h]
  · intro hg ht hu
    unfold check_gemini_cooldown
    simp [hg, ht, hu]

/-- C7 witness: at time 1000 with the global timestamp at 990 and the user
timestamp at 995 both cooldowns are active, and the rejection is the
global-cooldown one with wait 60 - (1000 - 990) = 50; and with the global
timestamp far in the past (at 0) the same user is rejected with the
per-user wait 60 - (1000 - 995) = 55. -/
theorem c7_global_first_user_wait_exact_witness :
    ((1000 : ℚ) - 990 < FREE_TIER_COOLDOWN ∧
      check_gemini_cooldown ⟨990, [(1, 995)]⟩ 1000 (some 1) =
        ((false, FREE_TIER_COOLDOWN - ((1000 : ℚ) - 990),
          CooldownMsg.globalWait (FREE_TIER_COOLDOWN - ((1000 : ℚ) - 990))),
          ⟨990, [(1, 995)]⟩)) ∧
    check_gemini_cooldown ⟨0, [(1, 995)]⟩ 1000 (some 1) =
      ((false, FREE_TIER_COOLDOWN -
          ((1000 : ℚ) - (dget (⟨0, [(1, 995)]⟩ : CooldownState).userCooldowns
            ((some 1 : Option Nat).getD 0)).getD dtMin),
        CooldownMsg.userWait (FREE_TIER_COOLDOWN -
          ((1000 : ℚ) - (dget (⟨0, [(1, 995)]⟩ : CooldownState).userCooldowns
            ((some 1 : Option Nat).getD 0)).getD dtMin))),
        ⟨0, [(1, 995)]⟩) :=
  ⟨⟨by norm_num [FREE_TIER_COOLDOWN],
    (c7_global_first_user_wait_exact ⟨990, [(1, 995)]⟩ 1000 (some 1)).1
      (by norm_num [FREE_TIER_COOLDOWN])⟩,
    (c7_global_first_user_wait_exact ⟨0, [(1, 995)]⟩ 1000 (some 1)).2
      (by norm_num [FREE_TIER_COOLDOWN])
      (by decide)
      (by norm_num [FREE_TIER_COOLDOWN, dget, dtMin])⟩

-- ============ claim C8 ============

/-- C8 counterexample: check_daily_quota is not mutation-free — on a day
rollover (stored reset date 0, current date 1) it clears the counts map and
advances the reset date, so the state it returns differs from the state it
was given. -/
theorem c8_counterexample :
    (check_daily_quota ⟨[(7, 5)], 0⟩ 1 7).2 ≠ ⟨[(7, 5)], 0⟩ := by decide

/-- C8 amended: check_gemini_cooldown never mutates the cooldown state, and
check_daily_quota mutates the quota state only through the lazy daily
rollover — whenever the current date equals the stored reset date it
returns the state unchanged. -/
theorem c8_amended_checks_pure_up_to_rollover (qst : QuotaState) (cst : CooldownState)
    (today u : Nat) (now : ℚ) (uid : Option Nat) :
    (check_gemini_cooldown cst now uid).2 = cst ∧
    (today = qst.resetDate → (check_daily_quota qst today u).2 = qst) := by
  refine ⟨check_cooldown_snd cst now uid, ?_⟩
  intro h
  unfold check_daily_quota
  simp only [h, ne_eq, not_true_eq_false, if_false]
  split <;> rfl

/-- C8 amended witness: on a same-day state both checks return the state
they were given. -/
theorem c8_amended_checks_pure_up_to_rollover_witness :
    (check_gemini_cooldown ⟨990, [(1, 995)]⟩ 1000 (some 1)).2 = ⟨990, [(1, 995)]⟩ ∧
    (check_daily_quota ⟨[(7, 5)], 3⟩ 3 7).2 = ⟨[(7, 5)], 3⟩ :=
  ⟨(c8_amended_checks_pure_up_to_rollover ⟨[(7, 5)], 3⟩ ⟨990, [(1, 995)]⟩ 3 7 1000 (some 1)).1,
   (c8_amended_checks_pure_up_to_rollover ⟨[(7, 5)], 3⟩ ⟨990, [(1, 995)]⟩ 3 7 1000 (some 1)).2 rfl⟩

end SoulSight

namespace SoulSight

-- ============ claim C9 ============

/-- C9: when the image file cannot be read, calculate_image_hash reports
failure (None, after catching the IOError raised by the read), and the
orchestrator neither aborts nor returns an error because of it: the cache
lookup is skipped, the request proceeds straight to the provider loop, and
the cache-insert is skipped too, so the cache is exactly as before. -/
theorem c9_fingerprint_fail_open (call : String → ProviderResp)
    (md5hex : List Nat → String) (e : String) (mode : String) (cp : Option String)
    (tone lengthP lang : String) (q : Option String) (uid : Option Nat)
    (cfg : Option String) (now pt : ℚ) (today : Nat) (st : GlobalState) (cnt : Nat)
    (hq : truthy uid = true →
      check_daily_quota st.quota today (uid.getD 0) =
        ((true, cnt, FREE_TIER_DAILY_LIMIT), st.quota))
    (hc : check_gemini_cooldown st.cooldown now uid = ((true, 0, CooldownMsg.ok), st.cooldown)) :
    calculate_image_hash (.error e) md5hex = none ∧
    process_image_with_gemini call md5hex (.error e) mode cp tone lengthP lang q uid cfg
        now today pt st =
      runProvider call (buildModels cfg) false (cacheKey "" mode cp tone lengthP lang q)
        now pt uid st ∧
    (runProvider call (buildModels cfg) false (cacheKey "" mode cp tone lengthP lang q)
        now pt uid st).2.cache = st.cache := by
  refine ⟨rfl, ?_, ?_⟩
  · cases htr : truthy uid
    · simp [process_image_with_gemini, htr, afterQuota, hc, afterAdmission,
        calculate_image_hash, hashTruthy]
    · simp [process_image_with_gemini, htr, hq htr, afterQuota, hc, afterAdmission,
        calculate_image_hash, hashTruthy]
  · rcases hloop : fallbackLoop call (buildModels cfg) none with ⟨m, t⟩ | s | le <;>
      simp [runProvider, hloop]

/-- C9 witness: a concrete unreadable file; the request still reaches the
provider and succeeds, and the cache stays empty. -/
theorem c9_fingerprint_fail_open_witness :
    calculate_image_hash (.error "io error") (fun _ => "h") = none ∧
    process_image_with_gemini (fun _ => ProviderResp.ok "hello") (fun _ => "h")
        (.error "io error") "caption" none "neutral" "medium" "en" none (some 1) none
        1000 5 1 ⟨⟨[], 5⟩, ⟨0, []⟩, []⟩ =
      runProvider (fun _ => ProviderResp.ok "hello") (buildModels none) false
        (cacheKey "" "caption" none "neutral" "medium" "en" none) 1000 1 (some 1)
        ⟨⟨[], 5⟩, ⟨0, []⟩, []⟩ ∧
    (runProvider (fun _ => ProviderResp.ok "hello") (buildModels none) false
        (cacheKey "" "caption" none "neutral" "medium" "en" none) 1000 1 (some 1)
        ⟨⟨[], 5⟩, ⟨0, []⟩, []⟩).2.cache = [] :=
  c9_fingerprint_fail_open (fun _ => ProviderResp.ok "hello") (fun _ => "h") "io error"
    "caption" none "neutral" "medium" "en" none (some 1) none 1000 1 5
    ⟨⟨[], 5⟩, ⟨0, []⟩, []⟩ 0
    (fun _ => by decide)
    (by norm_num [check_gemini_cooldown, dget, truthy, FREE_TIER_COOLDOWN, dtMin])

-- ============ claim C10 ============

/-- failFinalize never produces the daily-quota rejection dict. -/
theorem failFinalize_ne_daily (lastErr : Option String) (used limit : Nat) :
    failFinalize lastErr ≠ dailyQuotaResult used limit := by
  rcases lastErr with _ | s
  · intro h
    exact absurd (congrArg GResult.text h)
      (by simp [failFinalize, allFailedResult, dailyQuotaResult])
  · simp only [failFinalize]
    split_ifs <;> intro h <;>
      exact absurd (congrArg GResult.text h)
        (by simp [quotaStopResult, notFoundResult, genericErrorResult, dailyQuotaResult])

/-- With a falsy user the part of the pipeline after the admission checks
returns no daily-quota rejection and leaves the quota state and the
per-user cooldown map untouched. -/
theorem afterAdmission_falsy_frame (call : String → ProviderResp)
    (md5hex : List Nat → String) (file : Except String (List Nat)) (mode : String)
    (cp : Option String) (tone lengthP lang : String) (q : Option String)
    (uid : Option Nat) (cfg : Option String) (now pt : ℚ) (st : GlobalState)
    (hf : truthy uid = false) :
    (∀ used limit,
      (afterAdmission call md5hex file mode cp tone lengthP lang q uid cfg now pt st).1 ≠
        dailyQuotaResult used limit) ∧
    (afterAdmission call md5hex file mode cp tone lengthP lang q uid cfg now pt st).2.quota =
      st.quota ∧
    (afterAdmission call md5hex file mode cp tone lengthP lang q uid cfg now pt
        st).2.cooldown.userCooldowns = st.cooldown.userCooldowns := by
  unfold afterAdmission
  cases hhit : (if hashTruthy (calculate_image_hash file md5hex) then
      get_cached_result st.cache
        (cacheKey ((calculate_image_hash file md5hex).getD "") mode cp tone lengthP lang q)
    else none) with
  | some r =>
    simp only [hhit]
    refine ⟨?_, by trivial, by trivial⟩
    intro used limit h
    exact absurd (congrArg GResult.cached h) (by simp [cachedHitResult, dailyQuotaResult])
  | none =>
    simp only [hhit]
    unfold runProvider
    rcases hloop : fallbackLoop call (buildModels cfg) none with ⟨m, t⟩ | s | le
    · simp only [hloop, hf]
      refine ⟨?_, by simp [hf], ?_⟩
      · intro used limit h
        exact absurd (congrArg GResult.text h) (by simp [successResult, dailyQuotaResult])
      · simp [update_call_time_falsy st.cooldown now uid hf]
    · simp only [hloop]
      exact ⟨fun used limit => failFinalize_ne_daily (some s) used limit, by trivial, by trivial⟩
    · simp only [hloop]
      exact ⟨fun used limit => failFinalize_ne_daily le used limit, by trivial, by trivial⟩

/-- C10: a call with a falsy user_id (None or 0) skips the daily-quota gate
entirely — the daily-quota rejection outcome cannot be produced and the
quota state (counts and reset date) is never read through a reset nor
incremented; the per-user cooldown is neither consulted (the gate behaves
as with no user) nor recorded (only the global timestamp moves on success);
only the global cooldown is checked and updated. -/
theorem c10_falsy_user_global_only (call : String → ProviderResp)
    (md5hex : List Nat → String) (file : Except String (List Nat)) (mode : String)
    (cp : Option String) (tone lengthP lang : String) (q : Option String)
    (uid : Option Nat) (cfg : Option String) (now : ℚ) (today : Nat) (pt : ℚ)
    (st : GlobalState) (hf : truthy uid = false) :
    (∀ used limit,
      (process_image_with_gemini call md5hex file mode cp tone lengthP lang q uid cfg
        now today pt st).1 ≠ dailyQuotaResult used limit) ∧
    (process_image_with_gemini call md5hex file mode cp tone lengthP lang q uid cfg
        now today pt st).2.quota = st.quota ∧
    (process_image_with_gemini call md5hex file mode cp tone lengthP lang q uid cfg
        now today pt st).2.cooldown.userCooldowns = st.cooldown.userCooldowns ∧
    (∀ cst : CooldownState, check_gemini_cooldown cst now uid = check_gemini_cooldown cst now none) ∧
    (∀ cst : CooldownState, update_gemini_call_time cst now uid = { cst with lastGlobal := now }) := by
  have hp : process_image_with_gemini call md5hex file mode cp tone lengthP lang q uid cfg
      now today pt st =
      afterQuota call md5hex file mode cp tone lengthP lang q uid cfg now pt st := by
    simp [process_image_with_gemini, hf]
  have hfr : _ := afterAdmission_falsy_frame call md5hex file mode cp tone lengthP lang q
    uid cfg now pt st hf
  rw [hp]
  unfold afterQuota
  rcases hchk : check_gemini_cooldown st.cooldown now uid with ⟨⟨can, w, m⟩, cds⟩
  have hcds : cds = st.cooldown := by
    have h2 := check_cooldown_snd st.cooldown now uid
    rw [hchk] at h2
    exact h2
  subst hcds
  cases can
  case false =>
    simp only [hchk]
    refine ⟨?_, rfl, rfl, fun cst => check_cooldown_falsy cst now uid hf,
      fun cst => update_call_time_falsy cst now uid hf⟩
    intro used limit h
    exact absurd (congrArg GResult.text h) (by simp [cooldownResult, dailyQuotaResult])
  case true =>
    simp only [hchk]
    exact ⟨hfr.1, hfr.2.1, hfr.2.2, fun cst => check_cooldown_falsy cst now uid hf,
      fun cst => update_call_time_falsy cst now uid hf⟩

/-- C10 witness: user_id None at a concrete state — the global-only
behavior at a concrete input. -/
theorem c10_falsy_user_global_only_witness :
    (∀ used limit,
      (process_image_with_gemini (fun _ => ProviderResp.ok "hello") (fun _ => "h") (.ok [0])
        "caption" none "neutral" "medium" "en" none none none 1000 5 1
        ⟨⟨[(7, 5)], 5⟩, ⟨0, [(7, 900)]⟩, []⟩).1 ≠ dailyQuotaResult used limit) ∧
    (process_image_with_gemini (fun _ => ProviderResp.ok "hello") (fun _ => "h") (.ok [0])
        "caption" none "neutral" "medium" "en" none none none 1000 5 1
        ⟨⟨[(7, 5)], 5⟩, ⟨0, [(7, 900)]⟩, []⟩).2.quota = ⟨[(7, 5)], 5⟩ ∧
    (process_image_with_gemini (fun _ => ProviderResp.ok "hello") (fun _ => "h") (.ok [0])
        "caption" none "neutral" "medium" "en" none none none 1000 5 1
        ⟨⟨[(7, 5)], 5⟩, ⟨0, [(7, 900)]⟩, []⟩).2.cooldown.userCooldowns = [(7, 900)] ∧
    (∀ cst : CooldownState,
      check_gemini_cooldown cst 1000 none = check_gemini_cooldown cst 1000 none) ∧
    (∀ cst : CooldownState,
      update_gemini_call_time cst 1000 none = { cst with lastGlobal := 1000 }) :=
  c10_falsy_user_global_only (fun _ => ProviderResp.ok "hello") (fun _ => "h") (.ok [0])
    "caption" none "neutral" "medium" "en" none none none 1000 5 1
    ⟨⟨[(7, 5)], 5⟩, ⟨0, [(7, 900)]⟩, []⟩ (by decide)

end SoulSight

namespace SoulSight

-- ============ claim C1 ============

/-- The success path of the orchestrator: with the admission checks passing,
the fingerprint available, a cache miss and a successful loop, the call
returns result_data and updates all three stores. -/
theorem process_success_path (call : String → ProviderResp)
    (md5hex : List Nat → String) (file : Except String (List Nat)) (mode : String)
    (cp : Option String) (tone lengthP lang : String) (q : Option String)
    (uid : Option Nat) (cfg : Option String) (now : ℚ) (today : Nat) (pt : ℚ)
    (st : GlobalState) (cnt : Nat) (h m t : String)
    (hh : calculate_image_hash file md5hex = some h) (hne : h ≠ "")
    (hq : truthy uid = true →
      check_daily_quota st.quota today (uid.getD 0) =
        ((true, cnt, FREE_TIER_DAILY_LIMIT), st.quota))
    (hc : check_gemini_cooldown st.cooldown now uid = ((true, 0, CooldownMsg.ok), st.cooldown))
    (hmiss : get_cached_result st.cache (cacheKey h mode cp tone lengthP lang q) = none)
    (hloop : fallbackLoop call (buildModels cfg) none = .success m t) :
    process_image_with_gemini call md5hex file mode cp tone lengthP lang q uid cfg
        now today pt st =
      (successResult m t pt,
       ⟨(if truthy uid = true then (increment_daily_count st.quota (uid.getD 0)).2
         else st.quota),
        update_gemini_call_time st.cooldown now uid,
        cache_result st.cache (cacheKey h mode cp tone lengthP lang q)
          (successResult m t pt)⟩) := by
  have hmiss2 : dget st.cache (cacheKey h mode cp tone lengthP lang q) = none := hmiss
  cases htr : truthy uid
  · simp [process_image_with_gemini, htr, afterQuota, hc, afterAdmission, hh, hashTruthy,
      hne, get_cached_result, hmiss2, runProvider, hloop]
  · simp [process_image_with_gemini, htr, hq htr, afterQuota, hc, afterAdmission, hh,
      hashTruthy, hne, get_cached_result, hmiss2, runProvider, hloop]

/-- C1: two calls with identical (imageHash, mode, customPrompt, tone,
length, language, question).  The first passes the admission checks, misses
the cache and succeeds at the provider, storing result_data.  If the second
call is also admitted (its quota and cooldown checks pass), it returns the
cache-hit dict — cached = true with the stored text, which is the first
result text — and the final state equals the state after the first call:
no cooldown timestamp moves and no daily count changes (no
update_gemini_call_time, no increment_daily_count). -/
theorem c1_second_identical_call_hits_cache (call : String → ProviderResp)
    (md5hex : List Nat → String) (file : Except String (List Nat)) (mode : String)
    (cp : Option String) (tone lengthP lang : String) (q : Option String)
    (uid : Option Nat) (cfg : Option String) (now1 now2 : ℚ) (today : Nat)
    (pt1 pt2 : ℚ) (st st1 : GlobalState) (r1 : GResult) (cnt1 cnt2 : Nat)
    (h m t : String)
    (hh : calculate_image_hash file md5hex = some h) (hne : h ≠ "")
    (hq1 : truthy uid = true →
      check_daily_quota st.quota today (uid.getD 0) =
        ((true, cnt1, FREE_TIER_DAILY_LIMIT), st.quota))
    (hc1 : check_gemini_cooldown st.cooldown now1 uid = ((true, 0, CooldownMsg.ok), st.cooldown))
    (hmiss : get_cached_result st.cache (cacheKey h mode cp tone lengthP lang q) = none)
    (hloop : fallbackLoop call (buildModels cfg) none = .success m t)
    (hsize : st.cache.length ≤ 999)
    (hp1 : process_image_with_gemini call md5hex file mode cp tone lengthP lang q uid cfg
        now1 today pt1 st = (r1, st1))
    (hq2 : truthy uid = true →
      check_daily_quota st1.quota today (uid.getD 0) =
        ((true, cnt2, FREE_TIER_DAILY_LIMIT), st1.quota))
    (hc2 : check_gemini_cooldown st1.cooldown now2 uid = ((true, 0, CooldownMsg.ok), st1.cooldown)) :
    process_image_with_gemini call md5hex file mode cp tone lengthP lang q uid cfg
        now2 today pt2 st1 = (cachedHitResult r1, st1) ∧
    (cachedHitResult r1).cached = true ∧ (cachedHitResult r1).text = r1.text := by
  have hps := process_success_path call md5hex file mode cp tone lengthP lang q uid cfg
    now1 today pt1 st cnt1 h m t hh hne hq1 hc1 hmiss hloop
  rw [hps] at hp1
  injection hp1 with hr1 hst1
  have hmiss' : dget st.cache (cacheKey h mode cp tone lengthP lang q) = none := hmiss
  have hcache : st1.cache =
      cache_result st.cache (cacheKey h mode cp tone lengthP lang q)
        (successResult m t pt1) := by
    rw [← hst1]
  have hkey : dget st1.cache (cacheKey h mode cp tone lengthP lang q) =
      some (successResult m t pt1) := by
    rw [hcache]
    simp only [cache_result]
    rw [dinsert_of_fresh _ hmiss']
    rw [if_neg (by simp; omega)]
    rw [dget_append_of_none _ hmiss']
    simp [dget]
  have hr1' : successResult m t pt1 = r1 := hr1
  cases htr : truthy uid
  · refine ⟨?_, rfl, rfl⟩
    simp [process_image_with_gemini, htr, afterQuota, hc2, afterAdmission, hh, hashTruthy,
      hne, get_cached_result, hkey, hr1']
  · refine ⟨?_, rfl, rfl⟩
    simp [process_image_with_gemini, htr, hq2 htr, afterQuota, hc2, afterAdmission, hh,
      hashTruthy, hne, get_cached_result, hkey, hr1']

end SoulSight

namespace SoulSight

set_option maxRecDepth 10000 in
/-- C1 witness: a concrete first call at time 1000 (success, stored) and a
second identical call at time 2000 (admitted) that hits the cache. -/
theorem c1_second_identical_call_hits_cache_witness :
    process_image_with_gemini (fun _ => ProviderResp.ok "hello") (fun _ => "h") (.ok [0])
        "caption" none "neutral" "medium" "en" none (some 1) none 2000 5 3
        ⟨⟨[(1, 1)], 5⟩, ⟨1000, [(1, 1000)]⟩,
          [("h:caption:None:neutral:medium:en:None", successResult "gemini-2.0-flash" "hello" 2)]⟩ =
      (cachedHitResult (successResult "gemini-2.0-flash" "hello" 2),
        ⟨⟨[(1, 1)], 5⟩, ⟨1000, [(1, 1000)]⟩,
          [("h:caption:None:neutral:medium:en:None", successResult "gemini-2.0-flash" "hello" 2)]⟩) ∧
    (cachedHitResult (successResult "gemini-2.0-flash" "hello" 2)).cached = true ∧
    (cachedHitResult (successResult "gemini-2.0-flash" "hello" 2)).text =
      (successResult "gemini-2.0-flash" "hello" 2).text :=
  c1_second_identical_call_hits_cache (fun _ => ProviderResp.ok "hello") (fun _ => "h")
    (.ok [0]) "caption" none "neutral" "medium" "en" none (some 1) none 1000 2000 5 2 3
    ⟨⟨[], 5⟩, ⟨0, []⟩, []⟩
    ⟨⟨[(1, 1)], 5⟩, ⟨1000, [(1, 1000)]⟩,
      [("h:caption:None:neutral:medium:en:None", successResult "gemini-2.0-flash" "hello" 2)]⟩
    (successResult "gemini-2.0-flash" "hello" 2) 0 1 "h" "gemini-2.0-flash" "hello"
    rfl (by decide) (fun _ => by decide)
    (by norm_num [check_gemini_cooldown, dget, truthy, FREE_TIER_COOLDOWN, dtMin])
    (by decide) (by decide) (by decide)
    (by
      exact process_success_path (fun _ => ProviderResp.ok "hello") (fun _ => "h") (.ok [0])
        "caption" none "neutral" "medium" "en" none (some 1) none 1000 5 2
        ⟨⟨[], 5⟩, ⟨0, []⟩, []⟩ 0 "h" "gemini-2.0-flash" "hello" rfl (by decide)
        (fun _ => by decide)
        (by norm_num [check_gemini_cooldown, dget, truthy, FREE_TIER_COOLDOWN, dtMin])
        (by decide) (by decide))
    (fun _ => by decide)
    (by norm_num [check_gemini_cooldown, dget, truthy, FREE_TIER_COOLDOWN, dtMin])

end SoulSight

namespace SoulSight

-- ============ claim C6 ============

/-- The ledger of the first n inserted (key, value) pairs, in insertion
order. -/
def mkEntries (keys : Nat → String) (vals : Nat → GResult) (n : Nat) :
    List (String × GResult) :=
  (List.range n).map (fun i => (keys i, vals i))

theorem mkEntries_keys (keys : Nat → String) (vals : Nat → GResult) (n : Nat) :
    (mkEntries keys vals n).map Prod.fst = (List.range n).map keys := by
  simp [mkEntries, List.map_map]

theorem mkEntries_fresh (keys : Nat → String) (vals : Nat → GResult)
    (hinj : ∀ i j, i < 1001 → j < 1001 → keys i = keys j → i = j)
    (n : Nat) (hn : n < 1001) : dget (mkEntries keys vals n) (keys n) = none := by
  apply dget_eq_none_of_not_mem
  rw [mkEntries_keys]
  intro hmem
  obtain ⟨j, hj, hjk⟩ := List.mem_map.mp hmem
  have hjr := List.mem_range.mp hj
  have := hinj j n (by omega) hn hjk
  omega

/-- Below the 1000-entry bound, inserting n distinct keys into the empty
cache just accumulates them in insertion order. -/
theorem cache_fill (keys : Nat → String) (vals : Nat → GResult)
    (hinj : ∀ i j, i < 1001 → j < 1001 → keys i = keys j → i = j) :
    ∀ n, n ≤ 1000 →
      List.foldl (fun c i => cache_result c (keys i) (vals i)) [] (List.range n) =
        mkEntries keys vals n := by
  intro n
  induction n with
  | zero => intro _; rfl
  | succ k ih =>
    intro hk
    rw [List.range_succ, List.foldl_append, ih (by omega)]
    simp only [List.foldl_cons, List.foldl_nil]
    simp only [cache_result]
    rw [dinsert_of_fresh _ (mkEntries_fresh keys vals hinj k (by omega))]
    rw [if_neg (by simp [mkEntries]; omega)]
    simp [mkEntries, List.range_succ]

/-- C6: cache_result inserts and, once the cache would exceed 1000 entries,
evicts the 100 earliest-inserted entries in one batch: inserting 1001
distinct keys into the empty cache leaves exactly 901 entries (hence at
most 901), and none of the 100 earliest-inserted keys can be found any
more. -/
theorem c6_eviction_batch (keys : Nat → String) (vals : Nat → GResult)
    (hinj : ∀ i j, i < 1001 → j < 1001 → keys i = keys j → i = j) :
    (List.foldl (fun c i => cache_result c (keys i) (vals i)) [] (List.range 1001)).length
      = 901 ∧
    (∀ i, i < 100 →
      dget (List.foldl (fun c i => cache_result c (keys i) (vals i)) [] (List.range 1001))
        (keys i) = none) := by
  have hstep : List.foldl (fun c i => cache_result c (keys i) (vals i)) [] (List.range 1001) =
      (mkEntries keys vals 1001).drop 100 := by
    rw [show (1001 : Nat) = 1000 + 1 from rfl, List.range_succ, List.foldl_append,
      cache_fill keys vals hinj 1000 (by omega)]
    simp only [List.foldl_cons, List.foldl_nil]
    simp only [cache_result]
    rw [dinsert_of_fresh _ (mkEntries_fresh keys vals hinj 1000 (by omega))]
    have hlen : (mkEntries keys vals 1000 ++ [(keys 1000, vals 1000)]).length = 1001 := by
      rw [List.length_append, mkEntries, List.length_map, List.length_range]
      rfl
    rw [if_pos (by omega)]
    have hm : mkEntries keys vals 1000 ++ [(keys 1000, vals 1000)] =
        mkEntries keys vals 1001 := by
      conv_rhs => rw [mkEntries, show (1001 : Nat) = 1000 + 1 from rfl, List.range_succ,
        List.map_append]
      rw [mkEntries]
      simp only [List.map_cons, List.map_nil]
    rw [hm]
  constructor
  · rw [hstep]
    simp [mkEntries]
  · intro i hi
    rw [hstep]
    apply dget_eq_none_of_not_mem
    rw [List.map_drop, mkEntries_keys]
    rw [show (1001 : Nat) = 100 + 901 from rfl, List.range_add]
    rw [List.map_append]
    rw [List.drop_left' (by rw [List.length_map, List.length_range])]
    intro hmem
    simp only [List.map_map, List.mem_map, List.mem_range] at hmem
    obtain ⟨j, hj, hjk⟩ := hmem
    have := hinj (100 + j) i (by omega) (by omega) hjk
    omega

/-- C6 witness: keys of pairwise different lengths are injective. -/
theorem c6_eviction_batch_witness :
    (List.foldl
        (fun c i => cache_result c (String.mk (List.replicate i 'a')) (allFailedResult))
        [] (List.range 1001)).length = 901 ∧
    (∀ i, i < 100 →
      dget (List.foldl
          (fun c i => cache_result c (String.mk (List.replicate i 'a')) (allFailedResult))
          [] (List.range 1001)) (String.mk (List.replicate i 'a')) = none) :=
  c6_eviction_batch (fun i => String.mk (List.replicate i 'a')) (fun _ => allFailedResult)
    (fun i j _ _ hk => by
      have := congrArg (fun s => s.length) hk
      simpa using this)

end SoulSight
